import Mathlib

/-!
Verification of the access-guard design of `tasksB.py`.

The module exposes two guard functions (`B1` path confinement, `B2`
read-only mode enforcement) and task wrappers (`B3`..`B10`) that call the
guards before performing one external operation each.  External
collaborators (HTTP, filesystem, SQL engines, markdown, CSV) are embedded
as oracle functions collected in a `World`; each wrapper returns its
caller-visible outcome together with the trace of external effects it
performed, so that "the guard runs first, no side effect occurs on
failure" is a statement about the trace.
-/

namespace TasksB

/-- Python `str.startswith`: `pre` is a literal prefix of `s`. -/
def pyStartsWith (s pre : String) : Bool :=
  pre.data.isPrefixOf s.data

/-- Python `str.endswith`: `suf` is a literal suffix of `s`. -/
def pyEndsWith (s suf : String) : Bool :=
  suf.data.isSuffixOf s.data

/-- Python `c in s` membership test for a single character. -/
def pyContains (s : String) (c : Char) : Bool :=
  s.data.contains c

/-- Exceptions raised by `tasksB.py`: FastAPI `HTTPException(status, detail)`,
Python `PermissionError(msg)` and `ValueError(msg)`. -/
inductive Exc where
  | httpException (status : Nat) (detail : String)
  | permissionError (msg : String)
  | valueError (msg : String)
deriving DecidableEq, Repr

/-- `B1(filepath)`: raises `HTTPException(403)` unless the path starts with
the literal string `/data`; otherwise returns `True`.  From
`tasksB.py` lines 22-27. -/
def B1 (filepath : String) : Except Exc Bool :=
  if !(pyStartsWith filepath "/data") then
    Except.error (Exc.httpException 403 "Access outside /data is not allowed.")
  else
    Except.ok true

/-- `B2(filepath, mode)`: raises `PermissionError` when the mode string
contains `w`, `x` or `a`; otherwise returns `True`.  From
`tasksB.py` lines 30-35. -/
def B2 (filepath : String) (mode : String) : Except Exc Bool :=
  if pyContains mode 'w' || pyContains mode 'x' || pyContains mode 'a' then
    Except.error (Exc.permissionError "Modifications to files are not allowed.")
  else
    Except.ok true

/-- `B1` with the logging side channel made explicit: the only state the
Python function touches is the process log, to which it appends an error
record on failure.  The first component is the caller-visible outcome. -/
def B1run (filepath : String) (log : List String) :
    Except Exc Bool × List String :=
  if !(pyStartsWith filepath "/data") then
    (Except.error (Exc.httpException 403 "Access outside /data is not allowed."),
     log ++ ["Unauthorized access attempt: " ++ filepath])
  else
    (Except.ok true, log)

/-- `B2` with the logging side channel made explicit, as for `B1run`. -/
def B2run (filepath : String) (mode : String) (log : List String) :
    Except Exc Bool × List String :=
  if pyContains mode 'w' || pyContains mode 'x' || pyContains mode 'a' then
    (Except.error (Exc.permissionError "Modifications to files are not allowed."),
     log ++ ["Unauthorized modification attempt: " ++ filepath])
  else
    (Except.ok true, log)

/-- The SQL engine chosen by `B5`. -/
inductive Engine where
  | sqlite
  | duckdb
deriving DecidableEq, Repr

/-- A CSV table as read by `pandas.read_csv`: a header row naming the
columns, and data rows. -/
structure DataFrame where
  header : List String
  rows : List (List String)
deriving DecidableEq, Repr

/-- The pandas filter `df[df[filter_column] == filter_value]`: selecting a
missing column raises (a `KeyError`); otherwise the rows whose entry in
that column equals the value are kept. -/
def dfFilter (df : DataFrame) (col val : String) : Except String DataFrame :=
  match df.header.findIdx? (fun h => h = col) with
  | none => Except.error ("KeyError: " ++ col)
  | some i =>
    Except.ok ⟨df.header, df.rows.filter (fun r => decide (r.getD i "" = val))⟩

/-- External side effects performed by the task wrappers, recorded in
order. -/
inductive Effect where
  | httpGet (url : String)
  | fileWrite (path content : String)
  | fileRead (path : String)
  | mdConvert (content : String)
  | sqlConnect (engine : Engine) (db : String)
  | csvRead (path : String)
  | gitClone (url path : String)
  | gitCommit (path message : String)
deriving DecidableEq, Repr

/-- Oracles for the external collaborators: each may fail with a Python
exception message (the `str(e)` the wrapper reports). -/
structure World where
  httpGet : String → Except String String
  fileWrite : String → String → Except String Unit
  fileRead : String → Except String String
  mdToHtml : String → Except String String
  sqliteExec : String → String → Except String String
  duckdbExec : String → String → Except String String
  readCsv : String → Except String DataFrame
  gitClone : String → String → Except String Unit
  gitCommit : String → String → Except String Unit

/-- Dispatch of `B5` to the connected engine's execute-and-fetch oracle. -/
def World.execFor (w : World) : Engine → String → String → Except String String
  | Engine.sqlite => w.sqliteExec
  | Engine.duckdb => w.duckdbExec

/-- `B3(url, save_path)`: guard the save path, then GET the url and write
the response text to the file; any exception in the try block becomes
`HTTPException(500, str(e))`.  From `tasksB.py` lines 38-51. -/
def B3 (w : World) (url save_path : String) :
    Except Exc Bool × List Effect :=
  match B1 save_path with
  | Except.error e => (Except.error e, [])
  | Except.ok _ =>
    match w.httpGet url with
    | Except.error msg =>
      (Except.error (Exc.httpException 500 msg), [Effect.httpGet url])
    | Except.ok text =>
      match w.fileWrite save_path text with
      | Except.error msg =>
        (Except.error (Exc.httpException 500 msg),
         [Effect.httpGet url, Effect.fileWrite save_path text])
      | Except.ok _ =>
        (Except.ok true, [Effect.httpGet url, Effect.fileWrite save_path text])

/-- `B4(repo_url, commit_message)`: guard the fixed path `/data/repo`
(which always passes), then `git clone` and `git commit` via subprocess;
any exception becomes `HTTPException(500, str(e))`.  From `tasksB.py`
lines 54-66. -/
def B4 (w : World) (repo_url commit_message : String) :
    Except Exc Bool × List Effect :=
  match B1 "/data/repo" with
  | Except.error e => (Except.error e, [])
  | Except.ok _ =>
    match w.gitClone repo_url "/data/repo" with
    | Except.error msg =>
      (Except.error (Exc.httpException 500 msg),
       [Effect.gitClone repo_url "/data/repo"])
    | Except.ok _ =>
      match w.gitCommit "/data/repo" commit_message with
      | Except.error msg =>
        (Except.error (Exc.httpException 500 msg),
         [Effect.gitClone repo_url "/data/repo",
          Effect.gitCommit "/data/repo" commit_message])
      | Except.ok _ =>
        (Except.ok true,
         [Effect.gitClone repo_url "/data/repo",
          Effect.gitCommit "/data/repo" commit_message])

/-- Python `'sqlite' if db_path.endswith('.db') else 'duckdb'` from `B5`. -/
def B5dbType (db_path : String) : Engine :=
  if pyEndsWith db_path ".db" then Engine.sqlite else Engine.duckdb

/-- `B5(db_path, query, output_filename)`: guard both paths, connect to the
engine chosen by file extension, run the query, write `str(result)`;
exceptions become `HTTPException(500, str(e))`.  From `tasksB.py`
lines 69-88. -/
def B5 (w : World) (db_path query output_filename : String) :
    Except Exc Bool × List Effect :=
  match B1 db_path with
  | Except.error e => (Except.error e, [])
  | Except.ok _ =>
    match B1 output_filename with
    | Except.error e => (Except.error e, [])
    | Except.ok _ =>
      match w.execFor (B5dbType db_path) db_path query with
      | Except.error msg =>
        (Except.error (Exc.httpException 500 msg),
         [Effect.sqlConnect (B5dbType db_path) db_path])
      | Except.ok result =>
        match w.fileWrite output_filename result with
        | Except.error msg =>
          (Except.error (Exc.httpException 500 msg),
           [Effect.sqlConnect (B5dbType db_path) db_path,
            Effect.fileWrite output_filename result])
        | Except.ok _ =>
          (Except.ok true,
           [Effect.sqlConnect (B5dbType db_path) db_path,
            Effect.fileWrite output_filename result])

/-- `B6(url, output_filename)`: guard the output path, then GET the url
and write the response text to the file; any exception becomes
`HTTPException(500, str(e))`.  From `tasksB.py` lines 91-104. -/
def B6 (w : World) (url output_filename : String) :
    Except Exc Bool × List Effect :=
  match B1 output_filename with
  | Except.error e => (Except.error e, [])
  | Except.ok _ =>
    match w.httpGet url with
    | Except.error msg =>
      (Except.error (Exc.httpException 500 msg), [Effect.httpGet url])
    | Except.ok text =>
      match w.fileWrite output_filename text with
      | Except.error msg =>
        (Except.error (Exc.httpException 500 msg),
         [Effect.httpGet url, Effect.fileWrite output_filename text])
      | Except.ok _ =>
        (Except.ok true,
         [Effect.httpGet url, Effect.fileWrite output_filename text])

/-- `B8(audio_path)`: guard the path; the try block only binds a constant
placeholder string and logs, performing no external operation, so on
guard success it returns `True` with no effects.  From `tasksB.py`
lines 125-136. -/
def B8 (audio_path : String) : Except Exc Bool × List Effect :=
  match B1 audio_path with
  | Except.error e => (Except.error e, [])
  | Except.ok _ => (Except.ok true, [])

/-- `B9(md_path, output_path)`: guard both paths (the source path first, as
the Python `or` short-circuits), read the markdown, convert it, write the
HTML; exceptions become `HTTPException(500, str(e))`.  From `tasksB.py`
lines 139-152. -/
def B9 (w : World) (md_path output_path : String) :
    Except Exc Bool × List Effect :=
  match B1 md_path with
  | Except.error e => (Except.error e, [])
  | Except.ok _ =>
    match B1 output_path with
    | Except.error e => (Except.error e, [])
    | Except.ok _ =>
      match w.fileRead md_path with
      | Except.error msg =>
        (Except.error (Exc.httpException 500 msg), [Effect.fileRead md_path])
      | Except.ok content =>
        match w.mdToHtml content with
        | Except.error msg =>
          (Except.error (Exc.httpException 500 msg),
           [Effect.fileRead md_path, Effect.mdConvert content])
        | Except.ok html =>
          match w.fileWrite output_path html with
          | Except.error msg =>
            (Except.error (Exc.httpException 500 msg),
             [Effect.fileRead md_path, Effect.mdConvert content,
              Effect.fileWrite output_path html])
          | Except.ok _ =>
            (Except.ok true,
             [Effect.fileRead md_path, Effect.mdConvert content,
              Effect.fileWrite output_path html])

/-- `B10(csv_path, filter_column, filter_value)`: guard the path, read the
CSV, filter it — and return the constant `True`, discarding the filtered
rows; exceptions become `HTTPException(500, str(e))`.  From `tasksB.py`
lines 155-166. -/
def B10 (w : World) (csv_path filter_column filter_value : String) :
    Except Exc Bool × List Effect :=
  match B1 csv_path with
  | Except.error e => (Except.error e, [])
  | Except.ok _ =>
    match w.readCsv csv_path with
    | Except.error msg =>
      (Except.error (Exc.httpException 500 msg), [Effect.csvRead csv_path])
    | Except.ok df =>
      match dfFilter df filter_column filter_value with
      | Except.error msg =>
        (Except.error (Exc.httpException 500 msg), [Effect.csvRead csv_path])
      | Except.ok _filtered =>
        (Except.ok true, [Effect.csvRead csv_path])

/-- Module initialisation, `tasksB.py` lines 15-17: read `AIPROXY_TOKEN`
from the environment and raise `ValueError` when it is absent (Python
`not AIPROXY_TOKEN` is also true for the empty string). -/
def moduleInit (env : String → Option String) : Except Exc String :=
  match env "AIPROXY_TOKEN" with
  | none =>
    Except.error
      (Exc.valueError "AIPROXY_TOKEN not set. Please configure it in your environment.")
  | some t =>
    if t = "" then
      Except.error
        (Exc.valueError "AIPROXY_TOKEN not set. Please configure it in your environment.")
    else
      Except.ok t

/-- Split a character list at `/`, as Python `path.split('/')`. -/
def splitOnSlashAux : List Char → List Char → List String
  | [], acc => [String.mk acc.reverse]
  | c :: cs, acc =>
    if c = '/' then String.mk acc.reverse :: splitOnSlashAux cs []
    else splitOnSlashAux cs (c :: acc)

/-- Join path segments with `/`. -/
def joinSegs : List String → String
  | [] => ""
  | [s] => s
  | s :: rest => s ++ "/" ++ joinSegs rest

/-- Process path segments left to right keeping a reversed stack: empty and
`.` segments are dropped, `..` pops the stack (dropped at the root of an
absolute path, kept when there is nothing left to pop in a relative one),
anything else is pushed. -/
def normStack (isAbs : Bool) : List String → List String → List String
  | stack, [] => stack
  | stack, seg :: rest =>
    if seg = "" then normStack isAbs stack rest
    else if seg = "." then normStack isAbs stack rest
    else if seg = ".." then
      match stack with
      | [] => normStack isAbs (if isAbs then [] else [".."]) rest
      | top :: stk =>
        if top = ".." then normStack isAbs (".." :: stack) rest
        else normStack isAbs stk rest
    else normStack isAbs (seg :: stack) rest

/-- Spec-side path normalization, following the specification's words for
`confine`: "normalize `..` segments and relative components before
comparison" (the usual lexical `normpath`).  This is the specification's
comparison, deliberately distinct from the implementation `B1`, which
performs no normalization. -/
def specNormalize (p : String) : String :=
  let isAbs := pyStartsWith p "/"
  let segs := splitOnSlashAux p.data []
  let core := joinSegs (normStack isAbs [] segs).reverse
  if isAbs then "/" ++ core else if core = "" then "." else core

/-- Spec-side acceptance condition for `confine`: after normalization the
path is the configured root `/data` itself or nested under it. -/
def specUnderRoot (p : String) : Bool :=
  decide (specNormalize p = "/data") || pyStartsWith (specNormalize p) "/data/"

/-- A world whose external operations all succeed, for concrete witnesses. -/
def wOk : World where
  httpGet := fun _ => Except.ok "payload"
  fileWrite := fun _ _ => Except.ok ()
  fileRead := fun _ => Except.ok "# title"
  mdToHtml := fun s => Except.ok s
  sqliteExec := fun _ _ => Except.ok "[]"
  duckdbExec := fun _ _ => Except.ok "[]"
  readCsv := fun _ => Except.ok ⟨["c"], [["v"], ["z"]]⟩
  gitClone := fun _ _ => Except.ok ()
  gitCommit := fun _ _ => Except.ok ()

/-- A world whose CSV has one row matching the filter `c = v`. -/
def wCsvA : World :=
  { wOk with readCsv := fun _ => Except.ok ⟨["c"], [["v"], ["z"]]⟩ }

/-- A world whose CSV has no row matching the filter `c = v`. -/
def wCsvB : World :=
  { wOk with readCsv := fun _ => Except.ok ⟨["c"], []⟩ }

/-- Claim C1 (counterexample): the claim says every path not under `/data`
after normalization fails with `AccessDenied`, but `/database/secret` is
not under `/data` after normalization and `B1` nevertheless succeeds,
because `B1` only tests the literal prefix `/data`. -/
theorem C1_counterexample :
    specUnderRoot "/database/secret" = false ∧
      B1 "/database/secret" = Except.ok true :=
  ⟨rfl, rfl⟩

/-- Claim C1 (amended): `B1` fails with `HTTPException 403` (the
`AccessDenied` of the spec) exactly for the paths that do not begin with
the literal characters `/data`; no normalization of `..` segments or
relative components is performed. -/
theorem C1_amended (p : String) (h : pyStartsWith p "/data" = false) :
    B1 p = Except.error (Exc.httpException 403 "Access outside /data is not allowed.") := by
  simp [B1, h]

/-- Claim C1 (witness): `B1 "/etc/passwd"` fails with the 403 error. -/
theorem C1_amended_witness :
    pyStartsWith "/etc/passwd" "/data" = false ∧
      B1 "/etc/passwd" =
        Except.error (Exc.httpException 403 "Access outside /data is not allowed.") :=
  ⟨rfl, C1_amended "/etc/passwd" rfl⟩

/-- Claim C2 (counterexample): the claim says `require_read_only` succeeds
only if the mode is exactly read, and fails for every mode that could
mutate a file; but `B2` accepts the mode string `r+`, which is not the
read mode `r` and opens the file for writing as well. -/
theorem C2_counterexample :
    B2 "file.txt" "r+" = Except.ok true ∧ ("r+" : String) ≠ "r" :=
  ⟨rfl, by decide⟩

/-- Claim C2 (amended): `B2` fails with `PermissionError` (the spec's
`WriteNotAllowed`) exactly when the mode string contains one of the
characters `w`, `x`, `a`; in particular write `w`, append `a` and
create-exclusive `x` all fail and the read mode `r` succeeds, but other
mode strings free of those characters — such as the mutating `r+` —
also succeed. -/
theorem C2_amended :
    (∀ f m : String,
        B2 f m = Except.ok true ↔
          (pyContains m 'w' || pyContains m 'x' || pyContains m 'a') = false)
    ∧ B2 "f" "w" = Except.error (Exc.permissionError "Modifications to files are not allowed.")
    ∧ B2 "f" "a" = Except.error (Exc.permissionError "Modifications to files are not allowed.")
    ∧ B2 "f" "x" = Except.error (Exc.permissionError "Modifications to files are not allowed.")
    ∧ B2 "f" "r" = Except.ok true := by
  refine ⟨fun f m => ?_, rfl, rfl, rfl, rfl⟩
  unfold B2
  cases h : (pyContains m 'w' || pyContains m 'x' || pyContains m 'a') <;> simp [h]

/-- Claim C3 (counterexample): the claim says every path that is under
`/data` after normalization is accepted, but `/./data/x` normalizes to
`/data/x`, which is under the root, and `B1` rejects it because the raw
string does not begin with `/data`. -/
theorem C3_counterexample :
    specUnderRoot "/./data/x" = true ∧
      B1 "/./data/x" =
        Except.error (Exc.httpException 403 "Access outside /data is not allowed.") :=
  ⟨rfl, rfl⟩

/-- Claim C3 (amended): `B1` succeeds exactly on the paths that begin with
the literal characters `/data` (so on the root `/data` itself and every
string extending it); normalization plays no part in the acceptance. -/
theorem C3_amended (p : String) (h : pyStartsWith p "/data" = true) :
    B1 p = Except.ok true := by
  simp [B1, h]

/-- Claim C3 (witness): `B1 "/data/out.csv"` succeeds. -/
theorem C3_amended_witness :
    pyStartsWith "/data/out.csv" "/data" = true ∧ B1 "/data/out.csv" = Except.ok true :=
  ⟨rfl, C3_amended "/data/out.csv" rfl⟩

/-- Claim C4 (confirmed): `B1`'s acceptance condition is exactly the
string-prefix test for `/data`: it accepts every string beginning with
`/data`, including the sibling directory `/database/secret` and the
escaping `/data/../etc/passwd`, and rejects every other string,
including relative paths such as `data/relative.txt`. -/
theorem C4_prefix_characterization :
    (∀ p : String, B1 p = Except.ok true ↔ pyStartsWith p "/data" = true)
    ∧ B1 "/database/secret" = Except.ok true
    ∧ B1 "/data/../etc/passwd" = Except.ok true
    ∧ B1 "data/relative.txt" =
        Except.error (Exc.httpException 403 "Access outside /data is not allowed.") := by
  refine ⟨fun p => ?_, rfl, rfl, rfl⟩
  unfold B1
  cases h : pyStartsWith p "/data" <;> simp [h]

/-- Claim C5 (counterexample): the claim says every save path outside the
configured root is rejected before the network call, but the save path
`/data/../etc/passwd` lies outside the root after normalization and `B3`
nevertheless performs the HTTP GET and writes the fetched payload to
that path, because the guard only tests the literal prefix `/data`. -/
theorem C5_counterexample :
    specUnderRoot "/data/../etc/passwd" = false ∧
      B3 wOk "http://example.com/a" "/data/../etc/passwd" =
        (Except.ok true,
         [Effect.httpGet "http://example.com/a",
          Effect.fileWrite "/data/../etc/passwd" "payload"]) :=
  ⟨rfl, rfl⟩

/-- Claim C5 (amended): when `B3` is given a save path that does not begin
with the literal characters `/data`, it fails with the 403 access-denied
error and its effect trace is empty: no HTTP request is made and no file
is written, whatever the world's oracles would have answered.  (A save
path carrying the literal prefix passes the guard even when it escapes
the root after normalization, and the fetch then proceeds.) -/
theorem C5_guard_before_network (w : World) (url save_path : String)
    (h : pyStartsWith save_path "/data" = false) :
    B3 w url save_path =
      (Except.error (Exc.httpException 403 "Access outside /data is not allowed."), []) := by
  simp [B3, B1, h]

/-- Claim C5 (witness): the guard rejects `/tmp/evil.txt` before the
network call even in a world whose HTTP oracle would succeed. -/
theorem C5_witness :
    pyStartsWith "/tmp/evil.txt" "/data" = false ∧
      B3 wOk "http://example.com/a" "/tmp/evil.txt" =
        (Except.error (Exc.httpException 403 "Access outside /data is not allowed."), []) :=
  ⟨rfl, C5_guard_before_network wOk "http://example.com/a" "/tmp/evil.txt" rfl⟩

/-- Claim C6 (confirmed): in every task wrapper present in the source —
`B3`, `B4`, `B5`, `B6`, `B8`, `B9` and `B10` (`B7` is commented out) —
every outcome the caller sees is either success, the 403 access-denied
error from the guard, or a 500 error whose detail is exactly the message
of the external operation that failed — no error is swallowed, in any
world.  (`B8`'s try block performs no external operation, so only the
first two outcomes can arise there.) -/
theorem C6_errors_surface :
    (∀ (w : World) (url p : String),
        (B3 w url p).1 = Except.ok true
      ∨ (B3 w url p).1 =
          Except.error (Exc.httpException 403 "Access outside /data is not allowed.")
      ∨ ∃ msg : String,
          (B3 w url p).1 = Except.error (Exc.httpException 500 msg)
          ∧ (w.httpGet url = Except.error msg
             ∨ ∃ t : String, w.httpGet url = Except.ok t ∧ w.fileWrite p t = Except.error msg))
    ∧ (∀ (w : World) (ru cm : String),
        (B4 w ru cm).1 = Except.ok true
      ∨ (B4 w ru cm).1 =
          Except.error (Exc.httpException 403 "Access outside /data is not allowed.")
      ∨ ∃ msg : String,
          (B4 w ru cm).1 = Except.error (Exc.httpException 500 msg)
          ∧ (w.gitClone ru "/data/repo" = Except.error msg
             ∨ (w.gitClone ru "/data/repo" = Except.ok ()
                ∧ w.gitCommit "/data/repo" cm = Except.error msg)))
    ∧ (∀ (w : World) (p q o : String),
        (B5 w p q o).1 = Except.ok true
      ∨ (B5 w p q o).1 =
          Except.error (Exc.httpException 403 "Access outside /data is not allowed.")
      ∨ ∃ msg : String,
          (B5 w p q o).1 = Except.error (Exc.httpException 500 msg)
          ∧ (w.execFor (B5dbType p) p q = Except.error msg
             ∨ ∃ r : String, w.execFor (B5dbType p) p q = Except.ok r
                ∧ w.fileWrite o r = Except.error msg))
    ∧ (∀ (w : World) (url o : String),
        (B6 w url o).1 = Except.ok true
      ∨ (B6 w url o).1 =
          Except.error (Exc.httpException 403 "Access outside /data is not allowed.")
      ∨ ∃ msg : String,
          (B6 w url o).1 = Except.error (Exc.httpException 500 msg)
          ∧ (w.httpGet url = Except.error msg
             ∨ ∃ t : String, w.httpGet url = Except.ok t ∧ w.fileWrite o t = Except.error msg))
    ∧ (∀ p : String,
        (B8 p).1 = Except.ok true
      ∨ (B8 p).1 =
          Except.error (Exc.httpException 403 "Access outside /data is not allowed."))
    ∧ (∀ (w : World) (mp op : String),
        (B9 w mp op).1 = Except.ok true
      ∨ (B9 w mp op).1 =
          Except.error (Exc.httpException 403 "Access outside /data is not allowed.")
      ∨ ∃ msg : String,
          (B9 w mp op).1 = Except.error (Exc.httpException 500 msg)
          ∧ (w.fileRead mp = Except.error msg
             ∨ ∃ c : String, w.fileRead mp = Except.ok c
                ∧ (w.mdToHtml c = Except.error msg
                   ∨ ∃ h : String, w.mdToHtml c = Except.ok h
                      ∧ w.fileWrite op h = Except.error msg)))
    ∧ (∀ (w : World) (p c v : String),
        (B10 w p c v).1 = Except.ok true
      ∨ (B10 w p c v).1 =
          Except.error (Exc.httpException 403 "Access outside /data is not allowed.")
      ∨ ∃ msg : String,
          (B10 w p c v).1 = Except.error (Exc.httpException 500 msg)
          ∧ (w.readCsv p = Except.error msg
             ∨ ∃ df : DataFrame, w.readCsv p = Except.ok df
                ∧ dfFilter df c v = Except.error msg)) := by
  refine ⟨?_, ?_, ?_, ?_, ?_, ?_, ?_⟩
  · intro w url p
    cases hg : pyStartsWith p "/data"
    · right; left; simp [B3, B1, hg]
    · cases hh : w.httpGet url with
      | error msg =>
        right; right
        exact ⟨msg, by simp [B3, B1, hg, hh], Or.inl rfl⟩
      | ok t =>
        cases hw : w.fileWrite p t with
        | error msg =>
          right; right
          exact ⟨msg, by simp [B3, B1, hg, hh, hw], Or.inr ⟨t, rfl, hw⟩⟩
        | ok u => left; simp [B3, B1, hg, hh, hw]
  · intro w ru cm
    have hB : B1 "/data/repo" = Except.ok true := rfl
    cases hc : w.gitClone ru "/data/repo" with
    | error msg =>
      right; right
      exact ⟨msg, by simp [B4, hB, hc], Or.inl rfl⟩
    | ok u =>
      cases hm : w.gitCommit "/data/repo" cm with
      | error msg =>
        right; right
        exact ⟨msg, by simp [B4, hB, hc, hm], Or.inr ⟨rfl, rfl⟩⟩
      | ok u2 => left; simp [B4, hB, hc, hm]
  · intro w p q o
    cases hg : pyStartsWith p "/data"
    · right; left; simp [B5, B1, hg]
    · cases hg2 : pyStartsWith o "/data"
      · right; left; simp [B5, B1, hg, hg2]
      · cases he : w.execFor (B5dbType p) p q with
        | error msg =>
          right; right
          exact ⟨msg, by simp [B5, B1, hg, hg2, he], Or.inl rfl⟩
        | ok r =>
          cases hw : w.fileWrite o r with
          | error msg =>
            right; right
            exact ⟨msg, by simp [B5, B1, hg, hg2, he, hw], Or.inr ⟨r, rfl, hw⟩⟩
          | ok u => left; simp [B5, B1, hg, hg2, he, hw]
  · intro w url o
    cases hg : pyStartsWith o "/data"
    · right; left; simp [B6, B1, hg]
    · cases hh : w.httpGet url with
      | error msg =>
        right; right
        exact ⟨msg, by simp [B6, B1, hg, hh], Or.inl rfl⟩
      | ok t =>
        cases hw : w.fileWrite o t with
        | error msg =>
          right; right
          exact ⟨msg, by simp [B6, B1, hg, hh, hw], Or.inr ⟨t, rfl, hw⟩⟩
        | ok u => left; simp [B6, B1, hg, hh, hw]
  · intro p
    cases hg : pyStartsWith p "/data"
    · right; simp [B8, B1, hg]
    · left; simp [B8, B1, hg]
  · intro w mp op
    cases hg : pyStartsWith mp "/data"
    · right; left; simp [B9, B1, hg]
    · cases hg2 : pyStartsWith op "/data"
      · right; left; simp [B9, B1, hg, hg2]
      · cases hr : w.fileRead mp with
        | error msg =>
          right; right
          exact ⟨msg, by simp [B9, B1, hg, hg2, hr], Or.inl rfl⟩
        | ok c =>
          cases hm : w.mdToHtml c with
          | error msg =>
            right; right
            exact ⟨msg, by simp [B9, B1, hg, hg2, hr, hm], Or.inr ⟨c, rfl, Or.inl hm⟩⟩
          | ok h =>
            cases hw : w.fileWrite op h with
            | error msg =>
              right; right
              exact ⟨msg, by simp [B9, B1, hg, hg2, hr, hm, hw],
                Or.inr ⟨c, rfl, Or.inr ⟨h, hm, hw⟩⟩⟩
            | ok u => left; simp [B9, B1, hg, hg2, hr, hm, hw]
  · intro w p c v
    cases hg : pyStartsWith p "/data"
    · right; left; simp [B10, B1, hg]
    · cases hr : w.readCsv p with
      | error msg =>
        right; right
        exact ⟨msg, by simp [B10, B1, hg, hr], Or.inl rfl⟩
      | ok df =>
        cases hf : dfFilter df c v with
        | error msg =>
          right; right
          exact ⟨msg, by simp [B10, B1, hg, hr, hf], Or.inr ⟨df, rfl, hf⟩⟩
        | ok f => left; simp [B10, B1, hg, hr, hf]

/-- Claim C7 (code bug): on guard success `B10` reads and filters the CSV
but hands the caller only the constant `True`: at `/data/d.csv` with
filter `c = v`, the filter result is a nonempty row set in world `wCsvA`
and empty in world `wCsvB`, yet the caller-visible outcome and effect
trace of `B10` are identical in both, so the filtered rows are neither
returned nor persisted — contradicting the function's own name and log
line about returning the JSON data. -/
theorem C7_result_discards_rows :
    B10 wCsvA "/data/d.csv" "c" "v" = (Except.ok true, [Effect.csvRead "/data/d.csv"])
    ∧ B10 wCsvB "/data/d.csv" "c" "v" = (Except.ok true, [Effect.csvRead "/data/d.csv"])
    ∧ dfFilter ⟨["c"], [["v"], ["z"]]⟩ "c" "v" = Except.ok ⟨["c"], [["v"]]⟩
    ∧ dfFilter ⟨["c"], []⟩ "c" "v" = Except.ok ⟨["c"], []⟩ :=
  ⟨rfl, rfl, rfl, rfl⟩

/-- Claim C8 (confirmed): when both guards pass, `B5`'s first external
effect is a connection to the engine chosen by `B5dbType`, and that
choice is the SQLite backend exactly when the database path ends in
`.db`, the DuckDB backend otherwise. -/
theorem C8_engine_dispatch (w : World) (p q o : String)
    (hp : pyStartsWith p "/data" = true) (ho : pyStartsWith o "/data" = true) :
    (B5 w p q o).2.head? = some (Effect.sqlConnect (B5dbType p) p)
    ∧ (B5dbType p = Engine.sqlite ↔ pyEndsWith p ".db" = true)
    ∧ (B5dbType p = Engine.duckdb ↔ pyEndsWith p ".db" = false) := by
  refine ⟨?_, ?_, ?_⟩
  · cases he : w.execFor (B5dbType p) p q with
    | error msg => simp [B5, B1, hp, ho, he]
    | ok r =>
      cases hw : w.fileWrite o r with
      | error msg => simp [B5, B1, hp, ho, he, hw]
      | ok u => simp [B5, B1, hp, ho, he, hw]
  · unfold B5dbType
    cases hd : pyEndsWith p ".db" <;> simp [hd]
  · unfold B5dbType
    cases hd : pyEndsWith p ".db" <;> simp [hd]

/-- Claim C8 (witness): at the SQLite path `/data/a.db`, writing to
`/data/o.txt`. -/
theorem C8_witness :
    pyStartsWith "/data/a.db" "/data" = true
    ∧ pyStartsWith "/data/o.txt" "/data" = true
    ∧ ((B5 wOk "/data/a.db" "select 1" "/data/o.txt").2.head? =
          some (Effect.sqlConnect (B5dbType "/data/a.db") "/data/a.db")
       ∧ (B5dbType "/data/a.db" = Engine.sqlite ↔ pyEndsWith "/data/a.db" ".db" = true)
       ∧ (B5dbType "/data/a.db" = Engine.duckdb ↔ pyEndsWith "/data/a.db" ".db" = false)) :=
  ⟨rfl, rfl, C8_engine_dispatch wOk "/data/a.db" "select 1" "/data/o.txt" rfl rfl⟩

/-- Claim C9 (confirmed): module initialisation fails with the `ValueError`
whenever the environment supplies no `AIPROXY_TOKEN`, so no handler can
become available. -/
theorem C9_token_required (env : String → Option String)
    (h : env "AIPROXY_TOKEN" = none) :
    moduleInit env =
      Except.error
        (Exc.valueError "AIPROXY_TOKEN not set. Please configure it in your environment.") := by
  simp [moduleInit, h]

/-- Claim C9 (witness): the empty environment fails initialisation. -/
theorem C9_token_required_witness :
    (fun _ : String => (none : Option String)) "AIPROXY_TOKEN" = none ∧
      moduleInit (fun _ : String => none) =
        Except.error
          (Exc.valueError "AIPROXY_TOKEN not set. Please configure it in your environment.") :=
  ⟨rfl, C9_token_required (fun _ : String => none) rfl⟩

/-- Claim C10 (confirmed): `B1` and `B2` are stateless and idempotent: the
outcome they hand the caller does not depend on the only state they touch
(the log), a repeated call after the first one's logging yields the same
outcome, and the outcome agrees with the pure `B1`/`B2` regardless of the
incoming log. -/
theorem C10_stateless_idempotent :
    ∀ (p m : String) (log1 log2 : List String),
      (B1run p log1).1 = (B1run p log2).1
      ∧ (B2run p m log1).1 = (B2run p m log2).1
      ∧ (B1run p (B1run p log1).2).1 = (B1run p log1).1
      ∧ (B2run p m (B2run p m log1).2).1 = (B2run p m log1).1
      ∧ B1 p = (B1run p log1).1
      ∧ B2 p m = (B2run p m log1).1 := by
  intro p m log1 log2
  refine ⟨?_, ?_, ?_, ?_, ?_, ?_⟩ <;>
    first
      | (cases hg : pyStartsWith p "/data" <;> simp [B1run, B1, hg])
      | (cases hm : (pyContains m 'w' || pyContains m 'x' || pyContains m 'a') <;>
          simp [B2run, B2, hm])

end TasksB
